import Mathlib

/-!
# Verification of the chat-box send pipeline

Shallow embedding of `src/app/soapbox/features/chats/components/chat-box.tsx`:
the composer state, the optimistic-mutation flow of `submitMessage`
(`onMutate` / `onError` / `onSettled`), the `sendMessage` guard, and the
upload / attachment handlers (`handleFiles`, `handleRemoveFile`,
`fileKeyGen`).

The query cache (`@tanstack/react-query`'s `queryClient`) is an external
collaborator; its operations are modelled with their documented semantics:
`getQueryData` returns a reference to the live cached object,
`setQueryData` with an updater invokes the updater on that object (or on
`undefined` when nothing is cached) and stores the returned reference, and
`invalidateQueries` / `cancelQueries` are recorded as effect-trace steps.
Because the component's updater mutates the cached object in place
(`const newResult = prevResult; newResult.pages = ...`), JavaScript
reference semantics matter, so cached query data lives on an explicit heap
of cells and the cache entry holds a reference (heap index) into it.
-/

/-- A media attachment descriptor (`response.data` of `uploadMedia`). -/
structure Attachment where
  id : String
  preview_url : String
deriving Repr, DecidableEq

/-- A chat message as produced by the optimistic insert in `onMutate`:
`{...newMessage, id, created_at, account_id, pending}` where `newMessage`
is the `{chatId, content}` record passed to `submitMessage.mutate`. -/
structure ChatMessage where
  id : String
  chatId : String
  content : String
  account_id : Option String
  created_at : Nat
  pending : Bool
deriving Repr, DecidableEq

/-- One page of a paginated chat-message query result. `result` is the list
of messages on the page; `link` stands for the remaining page fields, which
the object spread `{...page, result: ...}` copies unchanged. -/
structure Page where
  result : List ChatMessage
  link : Option String
deriving Repr, DecidableEq

/-- The cached query data for key `['chats', 'messages', chat.id]`:
an object with a `pages` array. -/
structure QueryData where
  pages : List Page
deriving Repr, DecidableEq

/-- The query cache restricted to the one key this component touches.
`heap` is the store of JavaScript objects (a reference is an index);
`entry` is the cache entry for `['chats', 'messages', chat.id]` — `none`
when the chat's pages have never been fetched (`getQueryData` returns
`undefined`). -/
structure Cache where
  heap : List QueryData
  entry : Option Nat
deriving Repr, DecidableEq

/-- Reading the pages currently visible under the chat's key: dereference
the cache entry. This is the observation the spec's properties are stated
against. -/
def readPages (c : Cache) : Option (List Page) :=
  c.entry.bind fun r => (c.heap.get? r).map QueryData.pages

/-- The chat passed to the component (`IChat`): id, `accepted` flag and the
creating account's id. -/
structure ChatInfo where
  id : String
  accepted : Bool
  created_by_account : String
deriving Repr, DecidableEq

/-- The `{chatId, content}` variables passed to `submitMessage.mutate`. -/
structure SendParams where
  chatId : String
  content : String
deriving Repr, DecidableEq

/-- `fileKeyGen = () => Math.floor(Math.random() * 0x10000)`.
The `Math.random()` draw `r ∈ [0, 1)` is passed in explicitly. -/
def fileKeyGen (r : ℚ) : ℤ :=
  ⌊r * 0x10000⌋

/-- Line 57: `!chat.accepted && chat.created_by_account !== account?.id`.
`accountId` is `account?.id` (`none` when no own account is loaded; a
string is never strictly equal to `undefined`). -/
def needsAcceptance (chat : ChatInfo) (accountId : Option String) : Bool :=
  !chat.accepted && some chat.created_by_account != accountId

/-- The component-local state: the five `useState` cells, the
`submitMessage` mutation's `isLoading` flag, the cache, and the context
(`previousChatMessages`) held by the in-flight mutation, if any. -/
structure ChatBoxState where
  content : String
  attachment : Option Attachment
  isUploading : Bool
  uploadProgress : ℚ
  resetFileKey : ℤ
  submitLoading : Bool
  cache : Cache
  pendingContext : Option (Option Nat)
deriving Repr, DecidableEq

/-- Line 59: `content.length === 0 && !attachment`. -/
def isSubmitDisabled (s : ChatBoxState) : Bool :=
  s.content.length == 0 && s.attachment.isNone

/-- Lines 116-122 (`clearState`): reset content, attachment, upload flags
and draw a fresh reset key. `r` is the `Math.random()` draw consumed by
`fileKeyGen`. -/
def clearState (s : ChatBoxState) (r : ℚ) : ChatBoxState :=
  { s with
    content := ""
    attachment := none
    isUploading := false
    uploadProgress := 0
    resetFileKey := fileKeyGen r }

/-- Lines 167-170 (`handleRemoveFile`): unset the attachment and draw a
fresh reset key. -/
def handleRemoveFile (s : ChatBoxState) (r : ℚ) : ChatBoxState :=
  { s with attachment := none, resetFileKey := fileKeyGen r }

/-- Line 178 (`handleFiles`, entry): `setIsUploading(true)`. -/
def handleFilesStart (s : ChatBoxState) : ChatBoxState :=
  { s with isUploading := true }

/-- Lines 183-185 (`handleFiles`, upload resolved): keep the returned
attachment descriptor and clear the uploading flag. -/
def handleFilesSuccess (s : ChatBoxState) (resp : Attachment) : ChatBoxState :=
  { s with attachment := some resp, isUploading := false }

/-- Lines 186-188 (`handleFiles`, upload rejected): the `catch` only runs
`setIsUploading(false)` — attachment and reset key are untouched. -/
def handleFilesCatch (s : ChatBoxState) : ChatBoxState :=
  { s with isUploading := false }

/-- Lines 172-175 (`onUploadProgress`): `loaded / total`. -/
def onUploadProgress (s : ChatBoxState) (loaded total : ℚ) : ChatBoxState :=
  { s with uploadProgress := loaded / total }

/-- The message built by the optimistic updater (lines 87-93):
`{...newMessage, id: String(Number(new Date())), created_at: new Date(),
account_id: account?.id, pending: true}`. `now` is the clock reading in
epoch milliseconds, so the client-generated id is its decimal string. -/
def optimisticMessage (newMessage : SendParams) (accountId : Option String)
    (now : Nat) : ChatMessage :=
  { id := toString now
    chatId := newMessage.chatId
    content := newMessage.content
    account_id := accountId
    created_at := now
    pending := true }

/-- The body of `prevResult.pages.map((page, idx) => ...)` (lines 83-98) as
an index-passing recursion: page 0 becomes
`{...page, result: [...page.result, msg]}` (the new message is appended at
the end of the `result` array); every other page is returned unchanged. -/
def mapPagesFrom (msg : ChatMessage) : Nat → List Page → List Page
  | _, [] => []
  | idx, page :: rest =>
      (if idx = 0 then { page with result := page.result ++ [msg] } else page)
        :: mapPagesFrom msg (idx + 1) rest

/-- `prevResult.pages.map(...)` starting at index 0. -/
def insertIntoPages (msg : ChatMessage) (pages : List Page) : List Page :=
  mapPagesFrom msg 0 pages

/-- A JavaScript runtime error escaping the updater. -/
inductive JsError where
  | typeError (msg : String)
deriving Repr, DecidableEq

/-- `queryClient.setQueryData(['chats','messages',chat.id], updater)` with
the updater of lines 81-101. The updater receives the cached object
(`undefined` when `entry = none`, in which case `prevResult.pages` raises a
TypeError before any cache write). Otherwise `const newResult = prevResult`
aliases the cached object, and `newResult.pages = prevResult.pages.map(...)`
mutates that same heap cell in place; the updater returns the unchanged
reference, so the cache entry keeps pointing at it. -/
def setQueryDataOptimistic (msg : ChatMessage) (c : Cache) :
    Except JsError Cache :=
  match c.entry with
  | none =>
      .error (.typeError "Cannot read properties of undefined (reading pages)")
  | some r =>
      match c.heap.get? r with
      | none => .error (.typeError "dangling reference")
      | some obj =>
          .ok { heap := c.heap.set r { pages := insertIntoPages msg obj.pages }
                entry := some r }

/-- Effect-trace steps emitted by the send pipeline, in execution order:
the composer-state reset, `queryClient.cancelQueries`, the
`getQueryData` snapshot, the optimistic `setQueryData`, the network calls
issued by `createChatMessage` / `acceptChat`, the `onError` rollback
`setQueryData`, and the `onSettled` `invalidateQueries`. A create-message
call records exactly the arguments passed at the call site — the media id
slot of the create-message operation (spec section 6) stays empty because
`createChatMessage(chatId, content)` is called with two arguments. -/
inductive Step where
  | clearDraft
  | cancelRefetch
  | takeSnapshot
  | optimisticInsert
  | netCreateMessage (chatId : String) (content : String) (media_id : Option String)
  | netAcceptChat
  | rollback
  | invalidate
deriving Repr, DecidableEq

/-- Lines 71-105 (`submitMessage`'s `onMutate`): clear the composer state,
await `cancelQueries`, snapshot `previousChatMessages := getQueryData(key)`
(a reference, `none` when nothing is cached), then run the optimistic
`setQueryData`. Returns the trace of steps reached, the state, and either
the context `{previousChatMessages}` or the error the updater raised. -/
def onMutate (accountId : Option String) (now : Nat) (r : ℚ)
    (newMessage : SendParams) (s : ChatBoxState) :
    List Step × ChatBoxState × Except JsError (Option Nat) :=
  let s1 := clearState s r
  let previous := s1.cache.entry
  match setQueryDataOptimistic (optimisticMessage newMessage accountId now) s1.cache with
  | .error e =>
      ([.clearDraft, .cancelRefetch, .takeSnapshot], s1, .error e)
  | .ok c =>
      ([.clearDraft, .cancelRefetch, .takeSnapshot, .optimisticInsert],
       { s1 with cache := c }, .ok previous)

/-- Lines 126-129: the `params` record built inside `sendMessage`
(`{content, media_id: attachment && attachment.id}`). It is assigned and
then never used — `submitMessage.mutate` receives `{chatId, content}`
instead, so the media id goes nowhere. -/
def sendMessageParams (s : ChatBoxState) : String × Option String :=
  (s.content, s.attachment.map Attachment.id)

/-- Lines 124-134 (`sendMessage`): if the submit guard passes
(`!isSubmitDisabled && !submitMessage.isLoading`), start the mutation
(`isLoading` becomes true), run `onMutate`, then issue the
create-message network call (`createChatMessage(chat.id, content)` — only
if `onMutate` did not raise) and the unconditional `acceptChat.mutate()`.
Otherwise nothing happens. `now` is the clock and `r` the `Math.random()`
draw consumed by `clearState`. -/
def sendMessage (chat : ChatInfo) (accountId : Option String) (now : Nat)
    (r : ℚ) (s : ChatBoxState) : List Step × ChatBoxState :=
  if !isSubmitDisabled s && !s.submitLoading then
    match onMutate accountId now r { chatId := chat.id, content := s.content }
        { s with submitLoading := true } with
    | (tr, s1, .error _) =>
        (tr ++ [.netAcceptChat], { s1 with pendingContext := none })
    | (tr, s1, .ok ctx) =>
        (tr ++ [.netCreateMessage chat.id s.content none, .netAcceptChat],
         { s1 with pendingContext := some ctx })
  else ([], s)

/-- Lines 107-113: settling the `submitMessage` mutation. On failure,
`onError` runs `setQueryData(key, context.previousChatMessages)` — it
stores the snapshotted reference back into the cache entry (the heap is
untouched). Then `onSettled` always runs one
`invalidateQueries(['chats','messages',chat.id])`. The mutation leaves the
loading state either way. -/
def settle (success : Bool) (s : ChatBoxState) : List Step × ChatBoxState :=
  if success then
    ([.invalidate], { s with submitLoading := false, pendingContext := none })
  else
    match s.pendingContext with
    | some ctx =>
        ([.rollback, .invalidate],
         { s with
           cache := { s.cache with entry := ctx }
           submitLoading := false
           pendingContext := none })
    | none =>
        ([.invalidate], { s with submitLoading := false, pendingContext := none })

/-- Number of create-message network calls in a trace. -/
def countCreate (tr : List Step) : Nat :=
  tr.countP fun st =>
    match st with
    | .netCreateMessage _ _ _ => true
    | _ => false

/-- Number of accept-chat network calls in a trace. -/
def countAccept (tr : List Step) : Nat :=
  tr.countP fun st =>
    match st with
    | .netAcceptChat => true
    | _ => false

/-- Number of cache invalidations in a trace. -/
def countInvalidate (tr : List Step) : Nat :=
  tr.countP fun st =>
    match st with
    | .invalidate => true
    | _ => false

/-! ## Concrete demonstration inputs -/

/-- A server-confirmed message already in the cache. -/
def demoMsg : ChatMessage :=
  { id := "1", chatId := "c1", content := "hello", account_id := some "other"
    created_at := 0, pending := false }

/-- The single cached page. -/
def demoPage : Page :=
  { result := [demoMsg], link := none }

/-- A cache with one fetched page for the chat. -/
def demoCache : Cache :=
  { heap := [{ pages := [demoPage] }], entry := some 0 }

/-- An already-accepted chat created by the current user. -/
def demoChat : ChatInfo :=
  { id := "c1", accepted := true, created_by_account := "me" }

/-- Composer state with the draft "hi" typed and the demo cache. -/
def demoState : ChatBoxState :=
  { content := "hi", attachment := none, isUploading := false
    uploadProgress := 0, resetFileKey := 7, submitLoading := false
    cache := demoCache, pendingContext := none }

/-- The optimistic message produced at clock reading 1700. -/
def demoOptimistic : ChatMessage :=
  optimisticMessage { chatId := "c1", content := "hi" } (some "me") 1700

/-- Composer state for a chat whose pages were never fetched. -/
def noCacheState : ChatBoxState :=
  { demoState with cache := { heap := [], entry := none } }

/-- Composer state with empty draft and no attachment. -/
def emptyDraftState : ChatBoxState :=
  { demoState with content := "" }

/-- A finished upload's attachment descriptor. -/
def demoAttachment : Attachment :=
  { id := "a9", preview_url := "photo.png" }

/-- Composer state holding a pending attachment. -/
def attachmentState : ChatBoxState :=
  { demoState with attachment := some demoAttachment }

/-! ## Helper lemmas -/

/-- `clearState` only touches composer fields, never the cache. -/
theorem clearState_cache (s : ChatBoxState) (r : ℚ) :
    (clearState s r).cache = s.cache := rfl

/-- The indexed page map leaves every page alone once the index is
positive: only index 0 receives the appended message. -/
theorem mapPagesFrom_ne_zero (msg : ChatMessage) :
    ∀ (k : Nat) (l : List Page), k ≠ 0 → mapPagesFrom msg k l = l := by
  intro k l
  induction l generalizing k with
  | nil => intro _; rfl
  | cons p rest ih =>
      intro hk
      simp [mapPagesFrom, hk, ih (k + 1) (Nat.succ_ne_zero k)]

/-- On a non-empty page list the optimistic update appends the message to
the first page's `result` and keeps the remaining pages unchanged. -/
theorem insertIntoPages_cons (msg : ChatMessage) (p : Page) (rest : List Page) :
    insertIntoPages msg (p :: rest) = { p with result := p.result ++ [msg] } :: rest := by
  simp [insertIntoPages, mapPagesFrom, mapPagesFrom_ne_zero msg 1 rest one_ne_zero]

/-- When the chat's pages are cached, the optimistic `setQueryData`
succeeds and overwrites the referenced heap cell in place. -/
theorem setQueryDataOptimistic_ok (msg : ChatMessage) (c : Cache) (rf : Nat)
    (obj : QueryData) (he : c.entry = some rf) (hh : c.heap.get? rf = some obj) :
    setQueryDataOptimistic msg c =
      .ok { heap := c.heap.set rf { pages := insertIntoPages msg obj.pages }
            entry := some rf } := by
  have hh' : c.heap[rf]? = some obj := by rw [← List.get?_eq_getElem?]; exact hh
  simp [setQueryDataOptimistic, he, hh']

/-- When the chat's pages are cached, `onMutate` runs to completion: clear,
cancel, snapshot, insert; the context it returns is the snapshotted
reference — the same reference the mutated cell sits behind. -/
theorem onMutate_ok_eq (accountId : Option String) (now : Nat) (r : ℚ)
    (newMessage : SendParams) (s : ChatBoxState) (rf : Nat) (obj : QueryData)
    (he : s.cache.entry = some rf) (hh : s.cache.heap.get? rf = some obj) :
    onMutate accountId now r newMessage s =
      ([Step.clearDraft, Step.cancelRefetch, Step.takeSnapshot, Step.optimisticInsert],
       { clearState s r with
         cache := { heap := s.cache.heap.set rf
                      { pages := insertIntoPages
                          (optimisticMessage newMessage accountId now) obj.pages }
                    entry := some rf } },
       .ok (some rf)) := by
  simp only [onMutate, clearState_cache]
  rw [setQueryDataOptimistic_ok _ _ rf obj he hh]
  simp [he]

/-- Full evaluation of an accepted `sendMessage` on a chat with cached
pages: the emitted trace and the resulting state. -/
theorem sendMessage_ok_eq (chat : ChatInfo) (accountId : Option String)
    (now : Nat) (r : ℚ) (s : ChatBoxState) (rf : Nat) (obj : QueryData)
    (hd : isSubmitDisabled s = false) (hl : s.submitLoading = false)
    (he : s.cache.entry = some rf) (hh : s.cache.heap.get? rf = some obj) :
    sendMessage chat accountId now r s =
      ([Step.clearDraft, Step.cancelRefetch, Step.takeSnapshot, Step.optimisticInsert,
        Step.netCreateMessage chat.id s.content none, Step.netAcceptChat],
       { content := ""
         attachment := none
         isUploading := false
         uploadProgress := 0
         resetFileKey := fileKeyGen r
         submitLoading := true
         cache := { heap := s.cache.heap.set rf
                      { pages := insertIntoPages
                          (optimisticMessage { chatId := chat.id, content := s.content }
                            accountId now) obj.pages }
                    entry := some rf }
         pendingContext := some (some rf) }) := by
  have hon := onMutate_ok_eq accountId now r
    { chatId := chat.id, content := s.content } { s with submitLoading := true } rf obj he hh
  simp only [sendMessage, hd, hl, Bool.not_false, Bool.and_self, if_true, hon]
  rfl

/-- Reading the cache after the in-place update dereferences the updated
cell. -/
theorem readPages_set (c : Cache) (rf : Nat) (obj v : QueryData)
    (hh : c.heap.get? rf = some obj) :
    readPages { heap := c.heap.set rf v, entry := some rf } = some v.pages := by
  rcases List.get?_eq_some.mp hh with ⟨hlt, _⟩
  simp [readPages, List.get?_eq_getElem?, List.getElem?_set_eq_of_lt _ hlt]

/-! ## Claim C1 — rollback exactness -/

/-- **C1** (code bug). The claim says insert-then-rollback restores the
pages read at snapshot time. At the failing input — one cached page with
one server message, user sends "hi", the create call fails — the pages
after rollback differ from the snapshot-time pages: `previousChatMessages`
is a reference to the very object whose `pages` field the updater
reassigns (`const newResult = prevResult`), so the "snapshot" already
contains the optimistic entry when `onError` writes it back. The
snapshot-time read was `some [demoPage]`; the post-rollback read keeps the
pending message appended. -/
theorem c1_rollback_not_exact :
    readPages demoState.cache = some [demoPage] ∧
    readPages
        (settle false (sendMessage demoChat (some "me") 1700 (1/2) demoState).2).2.cache
      = some [{ result := [demoMsg, demoOptimistic], link := none }] ∧
    readPages
        (settle false (sendMessage demoChat (some "me") 1700 (1/2) demoState).2).2.cache
      ≠ readPages demoState.cache := by
  refine ⟨rfl, rfl, ?_⟩
  decide

/-! ## Claim C2 — immediate visibility by prepending -/

/-- **C2** (counterexample). As stated, the claim puts the new pending
message at the *front* of the first page. On a cache whose first page
already holds `demoMsg`, the send leaves `demoMsg` at the front and puts
the optimistic message at the *back* (`[...page.result, {...}]` appends),
so the claim's placement is false at this input. -/
theorem c2_counterexample :
    readPages (sendMessage demoChat (some "me") 1700 (1/2) demoState).2.cache
      = some [{ result := [demoMsg, demoOptimistic], link := none }] ∧
    demoMsg ≠ demoOptimistic := by
  refine ⟨rfl, ?_⟩
  decide

/-- **C2** (amended). For every send of a non-empty draft on a chat with
cached, non-empty pages, the optimistic insert *appends* the new message —
carrying `pending = true` and the client-generated id
`String(Number(new Date()))` — to the end of the first page's `result`
list, leaving the other pages untouched; the entry is visible as soon as
`sendMessage` returns, before the network call settles. -/
theorem c2_append_visibility (chat : ChatInfo) (accountId : Option String)
    (now : Nat) (r : ℚ) (s : ChatBoxState) (rf : Nat) (obj : QueryData)
    (p : Page) (rest : List Page)
    (hd : isSubmitDisabled s = false) (hl : s.submitLoading = false)
    (he : s.cache.entry = some rf) (hh : s.cache.heap.get? rf = some obj)
    (hp : obj.pages = p :: rest) :
    readPages (sendMessage chat accountId now r s).2.cache =
      some ({ p with result := p.result ++
        [optimisticMessage { chatId := chat.id, content := s.content } accountId now] }
          :: rest) ∧
    (optimisticMessage { chatId := chat.id, content := s.content } accountId now).pending
      = true ∧
    (optimisticMessage { chatId := chat.id, content := s.content } accountId now).id
      = toString now := by
  refine ⟨?_, rfl, rfl⟩
  rw [sendMessage_ok_eq chat accountId now r s rf obj hd hl he hh]
  rw [readPages_set s.cache rf obj _ hh]
  rw [hp, insertIntoPages_cons]

/-- Witness for `c2_append_visibility` at the demonstration input. -/
theorem c2_append_visibility_witness :
    (isSubmitDisabled demoState = false ∧ demoState.submitLoading = false ∧
      demoState.cache.entry = some 0 ∧
      demoState.cache.heap.get? 0 = some { pages := [demoPage] } ∧
      (QueryData.mk [demoPage]).pages = demoPage :: []) ∧
    (readPages (sendMessage demoChat (some "me") 1700 (1/2) demoState).2.cache =
      some ({ demoPage with result := demoPage.result ++
        [optimisticMessage { chatId := demoChat.id, content := demoState.content }
          (some "me") 1700] } :: []) ∧
    (optimisticMessage { chatId := demoChat.id, content := demoState.content }
      (some "me") 1700).pending = true ∧
    (optimisticMessage { chatId := demoChat.id, content := demoState.content }
      (some "me") 1700).id = toString 1700) :=
  ⟨⟨rfl, rfl, rfl, rfl, rfl⟩,
    c2_append_visibility demoChat (some "me") 1700 (1/2) demoState 0
      { pages := [demoPage] } demoPage [] rfl rfl rfl rfl rfl⟩

/-! ## Claim C3 — uncached chat: silent no-op -/

/-- **C3** (counterexample). As stated, the claim says the optimistic
insert on an uncached chat "does not raise an error". At a concrete
uncached state it raises a TypeError: the updater evaluates
`prevResult.pages` with `prevResult === undefined`. -/
theorem c3_counterexample :
    (onMutate (some "me") 1700 (1/2) { chatId := "c1", content := "hi" }
        { noCacheState with submitLoading := true }).2.2 =
      .error (.typeError "Cannot read properties of undefined (reading pages)") := rfl

/-- **C3** (amended). For every chat whose message pages are not yet
cached, the optimistic insert during send raises a TypeError (reading
`pages` of `undefined`) instead of silently no-oping; the error escapes
before any cache write, so the cache itself is left unchanged. -/
theorem c3_uncached_insert_raises (accountId : Option String) (now : Nat)
    (r : ℚ) (m : SendParams) (s : ChatBoxState) (h : s.cache.entry = none) :
    onMutate accountId now r m s =
      ([Step.clearDraft, Step.cancelRefetch, Step.takeSnapshot], clearState s r,
        .error (.typeError "Cannot read properties of undefined (reading pages)")) ∧
    (clearState s r).cache = s.cache := by
  refine ⟨?_, rfl⟩
  simp [onMutate, setQueryDataOptimistic, clearState_cache, h]

/-- Witness for `c3_uncached_insert_raises` on the uncached demo state. -/
theorem c3_uncached_insert_raises_witness :
    noCacheState.cache.entry = none ∧
    (onMutate (some "me") 99 (1/3) { chatId := "c1", content := "yo" } noCacheState =
      ([Step.clearDraft, Step.cancelRefetch, Step.takeSnapshot],
        clearState noCacheState (1/3),
        .error (.typeError "Cannot read properties of undefined (reading pages)")) ∧
    (clearState noCacheState (1/3)).cache = noCacheState.cache) :=
  ⟨rfl, c3_uncached_insert_raises (some "me") 99 (1/3)
    { chatId := "c1", content := "yo" } noCacheState rfl⟩

/-! ## Claim C4 — no-op guard -/

/-- **C4** (confirmed). A send with empty content and no attachment is a
complete no-op: `isSubmitDisabled` is true, so `sendMessage` emits no
trace step (no network call, no cache access) and returns the state
unchanged. -/
theorem c4_noop_guard (chat : ChatInfo) (accountId : Option String)
    (now : Nat) (r : ℚ) (s : ChatBoxState)
    (hc : s.content = "") (ha : s.attachment = none) :
    sendMessage chat accountId now r s = ([], s) := by
  simp [sendMessage, isSubmitDisabled, hc, ha]

/-- Witness for `c4_noop_guard` on an empty draft. -/
theorem c4_noop_guard_witness :
    emptyDraftState.content = "" ∧ emptyDraftState.attachment = none ∧
    sendMessage demoChat (some "me") 1700 (1/2) emptyDraftState =
      ([], emptyDraftState) :=
  ⟨rfl, rfl, c4_noop_guard demoChat (some "me") 1700 (1/2) emptyDraftState rfl rfl⟩

/-! ## Claim C5 — single-flight per chat -/

/-- **C5** (confirmed). A first accepted send issues exactly one
create-message network call, and a second send on the same chat issued
before the first settles is rejected outright (`submitMessage.isLoading`
is already true): it emits no step and changes nothing, so exactly one
create-message call is in flight. -/
theorem c5_single_flight (chat : ChatInfo) (accountId : Option String)
    (now : Nat) (r : ℚ) (now2 : Nat) (r2 : ℚ) (s : ChatBoxState)
    (rf : Nat) (obj : QueryData)
    (hd : isSubmitDisabled s = false) (hl : s.submitLoading = false)
    (he : s.cache.entry = some rf) (hh : s.cache.heap.get? rf = some obj) :
    countCreate (sendMessage chat accountId now r s).1 = 1 ∧
    sendMessage chat accountId now2 r2 (sendMessage chat accountId now r s).2
      = ([], (sendMessage chat accountId now r s).2) := by
  rw [sendMessage_ok_eq chat accountId now r s rf obj hd hl he hh]
  exact ⟨rfl, rfl⟩

/-- Witness for `c5_single_flight`: two back-to-back sends of "hi". -/
theorem c5_single_flight_witness :
    (isSubmitDisabled demoState = false ∧ demoState.submitLoading = false ∧
      demoState.cache.entry = some 0 ∧
      demoState.cache.heap.get? 0 = some { pages := [demoPage] }) ∧
    (countCreate (sendMessage demoChat (some "me") 1700 (1/2) demoState).1 = 1 ∧
      sendMessage demoChat (some "me") 1701 (1/3)
          (sendMessage demoChat (some "me") 1700 (1/2) demoState).2
        = ([], (sendMessage demoChat (some "me") 1700 (1/2) demoState).2)) :=
  ⟨⟨rfl, rfl, rfl, rfl⟩,
    c5_single_flight demoChat (some "me") 1700 (1/2) 1701 (1/3) demoState 0
      { pages := [demoPage] } rfl rfl rfl rfl⟩

/-! ## Claim C6 — pre-insert ordering -/

/-- **C6** (confirmed). On every accepted send against cached pages the
emitted trace is exactly: clear composer draft, cancel in-flight refetch,
take the snapshot, perform the optimistic insert, then the network calls —
so draft clearing, cancellation and the snapshot all happen strictly
before the insert, and the insert before any network activity; the
composer draft (content, attachment, upload flags) is already reset when
`sendMessage` returns, long before the network settles. -/
theorem c6_pre_insert_ordering (chat : ChatInfo) (accountId : Option String)
    (now : Nat) (r : ℚ) (s : ChatBoxState) (rf : Nat) (obj : QueryData)
    (hd : isSubmitDisabled s = false) (hl : s.submitLoading = false)
    (he : s.cache.entry = some rf) (hh : s.cache.heap.get? rf = some obj) :
    (sendMessage chat accountId now r s).1 =
      [Step.clearDraft, Step.cancelRefetch, Step.takeSnapshot,
       Step.optimisticInsert, Step.netCreateMessage chat.id s.content none,
       Step.netAcceptChat] ∧
    (sendMessage chat accountId now r s).2.content = "" ∧
    (sendMessage chat accountId now r s).2.attachment = none ∧
    (sendMessage chat accountId now r s).2.isUploading = false ∧
    (sendMessage chat accountId now r s).2.uploadProgress = 0 := by
  rw [sendMessage_ok_eq chat accountId now r s rf obj hd hl he hh]
  exact ⟨rfl, rfl, rfl, rfl, rfl⟩

/-- Witness for `c6_pre_insert_ordering` at the demonstration input. -/
theorem c6_pre_insert_ordering_witness :
    (isSubmitDisabled demoState = false ∧ demoState.submitLoading = false ∧
      demoState.cache.entry = some 0 ∧
      demoState.cache.heap.get? 0 = some { pages := [demoPage] }) ∧
    ((sendMessage demoChat (some "me") 1700 (1/2) demoState).1 =
      [Step.clearDraft, Step.cancelRefetch, Step.takeSnapshot,
       Step.optimisticInsert, Step.netCreateMessage demoChat.id demoState.content none,
       Step.netAcceptChat] ∧
    (sendMessage demoChat (some "me") 1700 (1/2) demoState).2.content = "" ∧
    (sendMessage demoChat (some "me") 1700 (1/2) demoState).2.attachment = none ∧
    (sendMessage demoChat (some "me") 1700 (1/2) demoState).2.isUploading = false ∧
    (sendMessage demoChat (some "me") 1700 (1/2) demoState).2.uploadProgress = 0) :=
  ⟨⟨rfl, rfl, rfl, rfl⟩,
    c6_pre_insert_ordering demoChat (some "me") 1700 (1/2) demoState 0
      { pages := [demoPage] } rfl rfl rfl rfl⟩

/-! ## Claim C7 — settle invariant -/

/-- **C7** (code bug). At the failing input (cached page, send "hi",
create call fails) the settle does run rollback before a single
invalidation — and a successful settle also invalidates exactly once — but
the claim's conclusion fails: the pending optimistic message is still
present in the cache after the failed settle, because the rollback writes
back the aliased snapshot reference whose `pages` field the updater had
already overwritten in place. -/
theorem c7_pending_present_after_failed_settle :
    (settle false (sendMessage demoChat (some "me") 1700 (1/2) demoState).2).1
      = [Step.rollback, Step.invalidate] ∧
    countInvalidate
        (settle true (sendMessage demoChat (some "me") 1700 (1/2) demoState).2).1 = 1 ∧
    readPages
        (settle false (sendMessage demoChat (some "me") 1700 (1/2) demoState).2).2.cache
      = some [{ result := [demoMsg, demoOptimistic], link := none }] ∧
    demoOptimistic.pending = true :=
  ⟨rfl, rfl, rfl, rfl⟩

/-! ## Claim C8 — reset-token monotonicity -/

/-- **C8** (counterexample). Two consecutive attachment removals whose
`Math.random()` draws are both `1/2` produce the *same* reset token
(`fileKeyGen` draws a fresh random key, it does not increment), and a
failed upload leaves the reset token untouched (`handleFiles`'s `catch`
only clears the uploading flag) — both conjuncts of the claim fail. -/
theorem c8_counterexample :
    (handleRemoveFile attachmentState (1/2)).resetFileKey
      = (handleRemoveFile (handleRemoveFile attachmentState (1/2)) (1/2)).resetFileKey ∧
    ¬ (handleRemoveFile attachmentState (1/2)).resetFileKey
        < (handleRemoveFile (handleRemoveFile attachmentState (1/2)) (1/2)).resetFileKey ∧
    (handleFilesCatch attachmentState).resetFileKey = attachmentState.resetFileKey := by
  refine ⟨rfl, ?_, rfl⟩
  simp [handleRemoveFile]

/-- **C8** (amended). Removing a pending attachment unsets it and replaces
the reset token by a *fresh random draw* `⌊r·0x10000⌋ ∈ [0, 65536)`,
which is neither strictly increasing nor collision-free with the previous
token; a failed upload clears the uploading flag only and leaves the reset
token unchanged. -/
theorem c8_reset_token_random (s : ChatBoxState) (r : ℚ)
    (h0 : 0 ≤ r) (h1 : r < 1) :
    (handleRemoveFile s r).attachment = none ∧
    (handleRemoveFile s r).resetFileKey = fileKeyGen r ∧
    0 ≤ fileKeyGen r ∧ fileKeyGen r < 65536 ∧
    (handleFilesCatch s).resetFileKey = s.resetFileKey ∧
    (handleFilesCatch s).isUploading = false := by
  refine ⟨rfl, rfl, ?_, ?_, rfl, rfl⟩
  · exact Int.floor_nonneg.mpr (by positivity)
  · exact Int.floor_lt.mpr (by push_cast; nlinarith)

/-- Witness for `c8_reset_token_random` at draw `r = 1/2`. -/
theorem c8_reset_token_random_witness :
    ((0 : ℚ) ≤ 1/2 ∧ (1/2 : ℚ) < 1) ∧
    ((handleRemoveFile attachmentState (1/2)).attachment = none ∧
      (handleRemoveFile attachmentState (1/2)).resetFileKey = fileKeyGen (1/2) ∧
      0 ≤ fileKeyGen (1/2) ∧ fileKeyGen (1/2) < 65536 ∧
      (handleFilesCatch attachmentState).resetFileKey = attachmentState.resetFileKey ∧
      (handleFilesCatch attachmentState).isUploading = false) :=
  ⟨⟨by norm_num, by norm_num⟩,
    c8_reset_token_random attachmentState (1/2) (by norm_num) (by norm_num)⟩

/-! ## Claim C9 — conditional implicit accept -/

/-- `onMutate` emits one of exactly two traces, neither containing a
network step: it stops after the snapshot when the updater raises, and
adds the optimistic insert otherwise. -/
theorem onMutate_trace (accountId : Option String) (now : Nat) (r : ℚ)
    (m : SendParams) (s : ChatBoxState) :
    (onMutate accountId now r m s).1 =
        [Step.clearDraft, Step.cancelRefetch, Step.takeSnapshot] ∨
    (onMutate accountId now r m s).1 =
        [Step.clearDraft, Step.cancelRefetch, Step.takeSnapshot,
         Step.optimisticInsert] := by
  unfold onMutate
  rcases hE : setQueryDataOptimistic (optimisticMessage m accountId now)
      (clearState s r).cache with e | c
  · left; simp [hE]
  · right; simp [hE]

/-- **C9** (counterexample). `demoChat` is already accepted, so the gate is
not in `NeedsAcceptance`; the claim says such a send issues no accept-chat
call — yet the trace of the send contains one (`acceptChat.mutate()` is
called unconditionally on line 132). -/
theorem c9_counterexample :
    needsAcceptance demoChat (some "me") = false ∧
    Step.netAcceptChat ∈ (sendMessage demoChat (some "me") 1700 (1/2) demoState).1 := by
  exact ⟨rfl, by decide⟩

/-- **C9** (amended). Every accepted send issues exactly one accept-chat
network call, regardless of the acceptance gate's state — in particular
also when the gate is already `Accepted` (`needsAcceptance = false`). -/
theorem c9_accept_unconditional (chat : ChatInfo) (accountId : Option String)
    (now : Nat) (r : ℚ) (s : ChatBoxState)
    (_hacc : needsAcceptance chat accountId = false)
    (hd : isSubmitDisabled s = false) (hl : s.submitLoading = false) :
    countAccept (sendMessage chat accountId now r s).1 = 1 := by
  have htr := onMutate_trace accountId now r
    { chatId := chat.id, content := s.content } { s with submitLoading := true }
  unfold sendMessage
  rw [hd, hl]
  simp only [Bool.not_false, Bool.and_self, if_true]
  rcases hM : onMutate accountId now r { chatId := chat.id, content := s.content }
      { s with submitLoading := true } with ⟨tr, s1, res⟩
  rw [hM] at htr
  simp only at htr
  cases res with
  | error e => rcases htr with h | h <;> subst h <;> rfl
  | ok ctx => rcases htr with h | h <;> subst h <;> rfl

/-- Witness for `c9_accept_unconditional` on an already-accepted chat. -/
theorem c9_accept_unconditional_witness :
    (needsAcceptance demoChat (some "me") = false ∧
      isSubmitDisabled demoState = false ∧ demoState.submitLoading = false) ∧
    countAccept (sendMessage demoChat (some "me") 1700 (1/2) demoState).1 = 1 :=
  ⟨⟨rfl, rfl, rfl⟩,
    c9_accept_unconditional demoChat (some "me") 1700 (1/2) demoState rfl rfl rfl⟩

/-! ## Claim C10 — attachment silently dropped -/

/-- **C10** (confirmed). When a send runs with an attachment set, the
create-message call is issued with the chat id and the text content only:
the `params` record that mentions `media_id` (lines 126-129) is never
passed anywhere, `submitMessage.mutate` receives `{chatId, content}`, and
`createChatMessage(chatId, content)` leaves the operation's media-id slot
empty — no trace step ever carries a media id. -/
theorem c10_attachment_dropped (chat : ChatInfo) (accountId : Option String)
    (now : Nat) (r : ℚ) (s : ChatBoxState) (a : Attachment)
    (rf : Nat) (obj : QueryData)
    (ha : s.attachment = some a) (hl : s.submitLoading = false)
    (he : s.cache.entry = some rf) (hh : s.cache.heap.get? rf = some obj) :
    (sendMessageParams s).2 = some a.id ∧
    Step.netCreateMessage chat.id s.content none
      ∈ (sendMessage chat accountId now r s).1 ∧
    ∀ cid ct m, Step.netCreateMessage cid ct m
      ∈ (sendMessage chat accountId now r s).1 → m = none := by
  have hd : isSubmitDisabled s = false := by simp [isSubmitDisabled, ha]
  refine ⟨by simp [sendMessageParams, ha], ?_, ?_⟩
  · rw [sendMessage_ok_eq chat accountId now r s rf obj hd hl he hh]
    simp
  · intro cid ct m hm
    rw [sendMessage_ok_eq chat accountId now r s rf obj hd hl he hh] at hm
    simp only [List.mem_cons, List.not_mem_nil, or_false] at hm
    rcases hm with h | h | h | h | h | h <;> simp_all

/-- Witness for `c10_attachment_dropped` with attachment `a9` set. -/
theorem c10_attachment_dropped_witness :
    (attachmentState.attachment = some demoAttachment ∧
      attachmentState.submitLoading = false ∧
      attachmentState.cache.entry = some 0 ∧
      attachmentState.cache.heap.get? 0 = some { pages := [demoPage] }) ∧
    ((sendMessageParams attachmentState).2 = some demoAttachment.id ∧
      Step.netCreateMessage demoChat.id attachmentState.content none
        ∈ (sendMessage demoChat (some "me") 1700 (1/2) attachmentState).1 ∧
      ∀ cid ct m, Step.netCreateMessage cid ct m
        ∈ (sendMessage demoChat (some "me") 1700 (1/2) attachmentState).1 → m = none) :=
  ⟨⟨rfl, rfl, rfl, rfl⟩,
    c10_attachment_dropped demoChat (some "me") 1700 (1/2) attachmentState
      demoAttachment 0 { pages := [demoPage] } rfl rfl rfl rfl⟩
